import Mathlib

set_option autoImplicit false

/-!
Shallow embedding of the Luster backend chat subsystem
(`fastapi_app/routers/chat/chat_service.py`, `fastapi_app/routers/chat/chat.py`,
`fastapi_app/utils/websocket_manager.py`) and proofs about the claims of the
natural-language specification.

Modelling conventions:
* MongoDB documents are Lean structures; a collection is a `List` of documents
  in insertion order.  `update_one` updates the first matching document of the
  collection (the model of an unordered collection scan); `update_many`
  updates every matching one.  A missing array field is modelled as `[]`
  (faithful for the `$elemMatch` / `$addToSet` uses that occur here), and a
  missing scalar field as `none`.
* Python/BSON dynamic typing of ids matters in several queries (ids are
  sometimes `int`, sometimes `str`): `BVal` is the tagged value, and BSON
  equality of an `int` with a `str` is `false`, exactly as in MongoDB.
* `datetime.utcnow()` is modelled by an explicit `now : Nat` argument.
* Python `set` iteration raises `RuntimeError` on the next iterator step once
  the set changed size; the broadcast loop model carries this as a flag.
-/

namespace Luster

/-- A BSON scalar as the service stores it: an integer or a string.
BSON equality between the two variants is always false. -/
inductive BVal where
  | bint (n : Int)
  | bstr (s : String)
deriving Repr, DecidableEq

/-- Python `str(v)` on an id value. -/
def pyStr : BVal → String
  | .bint n => toString n
  | .bstr s => s

/-- Lookup in an association list modelling a Python dict / Mongo subdocument. -/
def alookup {β : Type} (k : String) : List (String × β) → Option β
  | [] => none
  | (k2, v) :: rest => if k2 = k then some v else alookup k rest

/-- Python dict assignment `d[k] = v`: replaces in place, else appends. -/
def aset {β : Type} (k : String) (v : β) : List (String × β) → List (String × β)
  | [] => [(k, v)]
  | (k2, w) :: rest => if k2 = k then (k2, v) :: rest else (k2, w) :: aset k v rest

/-- Python `d.pop(k, None)`: removes the key if present. -/
def aremove {β : Type} (k : String) : List (String × β) → List (String × β)
  | [] => []
  | (k2, w) :: rest => if k2 = k then rest else (k2, w) :: aremove k rest

/-! ## Connection registry (`utils/websocket_manager.py`, class ConnectionManager)

`active_connections : Dict[str, WebSocket]` is modelled as an association list
from connection id to the socket's behaviour on `send_json` (`true` = the send
succeeds, `false` = it raises).  `chat_rooms : Dict[str, Set[str]]` keeps the
member sets as lists in insertion order (the iteration order of the model). -/

structure WSState where
  active_connections : List (String × Bool)
  chat_rooms : List (String × List String)
deriving Repr, DecidableEq

/-- A Python exception escaping the websocket manager. -/
inductive PyError where
  | runtimeError (msg : String)
deriving Repr, DecidableEq

namespace ConnectionManager

/-- Model of `ConnectionManager.disconnect`: drop the connection from the live map and
discard it from every room's member set. -/
def disconnect (connection_id : String) (s : WSState) : WSState :=
  if (alookup connection_id s.active_connections).isSome then
    { active_connections := s.active_connections.filter (fun p => !(p.1 == connection_id)),
      chat_rooms := s.chat_rooms.map (fun p => (p.1, p.2.filter (fun c => !(c == connection_id)))) }
  else s

/-- Result of a broadcast: the possibly-raised exception, the final registry
state, and the list of (connection, payload) deliveries that were sent. -/
structure BroadcastResult (α : Type) where
  err : Option PyError
  state : WSState
  sent : List (String × α)
deriving Repr

/-- The `for connection_id in self.chat_rooms[chat_id]` loop of
`broadcast_to_chat`.  `mutated` records that the set under iteration changed
size (the `disconnect` in the except-branch discards the failing member from
the very set being iterated); CPython's set iterator then raises
`RuntimeError` at the next iterator step, including the final one. -/
def broadcastLoop {α : Type} (payload : α) (exclude_connection : Option String) :
    List String → Bool → WSState → List (String × α) → BroadcastResult α
  | pending, mutated, s, sent =>
    if mutated then
      { err := some (.runtimeError "Set changed size during iteration"), state := s, sent := sent }
    else
      match pending with
      | [] => { err := none, state := s, sent := sent }
      | c :: rest =>
        if some c = exclude_connection then
          broadcastLoop payload exclude_connection rest false s sent
        else
          match alookup c s.active_connections with
          | none => broadcastLoop payload exclude_connection rest false s sent
          | some sendOk =>
            if sendOk then
              broadcastLoop payload exclude_connection rest false s (sent ++ [(c, payload)])
            else
              broadcastLoop payload exclude_connection rest true (disconnect c s) sent

/-- Model of `ConnectionManager.broadcast_to_chat`. -/
def broadcast_to_chat {α : Type} (chat_id : String) (message : α)
    (exclude_connection : Option String) (s : WSState) : BroadcastResult α :=
  match alookup chat_id s.chat_rooms with
  | none => { err := none, state := s, sent := [] }
  | some members => broadcastLoop message exclude_connection members false s []

end ConnectionManager

/-- Registry for the C1 scenario: room chat_a has members c1 and c2, both
connected; c1's socket raises on send, c2's socket works. -/
def c1FailFirst : WSState :=
  { active_connections := [("c1", false), ("c2", true)],
    chat_rooms := [("chat_a", ["c1", "c2"])] }

/-- Same scenario with the failing member iterated last. -/
def c1FailLast : WSState :=
  { active_connections := [("c1", false), ("c2", true)],
    chat_rooms := [("chat_a", ["c2", "c1"])] }

/-! ## Chat store documents (`models/chat_models.py` as actually persisted by
`chat_service.py`) -/

/-- A `read_by` / `delivered_to` / `deleted_by` entry
`{user_id, user_type, timestamp}`. -/
structure ReceiptEntry where
  user_id : BVal
  user_type : String
  timestamp : Nat
deriving Repr, DecidableEq

/-- A `deleted_for` entry `{user_id, user_type, deleted_at}`. -/
structure DeletedForEntry where
  user_id : BVal
  user_type : String
  deleted_at : Nat
deriving Repr, DecidableEq

/-- A `reply_to` subdocument `{message_id, content, sender_id}`. -/
structure ReplyTo where
  message_id : String
  content : String
  sender_id : BVal
deriving Repr, DecidableEq

/-- A reaction entry `{user_id, timestamp}` (the service always uses the
integer `current_user.user_id` here). -/
structure ReactionEntry where
  user_id : Int
  timestamp : Nat
deriving Repr, DecidableEq

/-- A stored chat message document.  `oid` is the Mongo `_id`; stored
documents carry no `message_id` field (`add_message` adds that key to its
in-memory dict only after the insert).  Missing array fields are `[]`,
missing scalar fields are `none`. -/
structure MessageDoc where
  oid : Nat
  chat_id : String
  sender_id : BVal
  sender_type : String
  content : String
  message_type : String
  timestamp : Nat
  read_by : List ReceiptEntry
  delivered_to : List ReceiptEntry
  is_deleted : Bool
  is_edited : Bool
  deleted_for : List DeletedForEntry
  deleted_by : Option ReceiptEntry
  deleted_at : Option Nat
  attachment : Option String
  gem_id : Option Int
  reply_to : Option ReplyTo
  reactions : List (String × List ReactionEntry)
deriving Repr, DecidableEq

/-- A `participants` entry.  `permissions = none` models the key being absent
(entries added by `add_chat_participant` have no `permissions` key). -/
structure Participant where
  id : BVal
  type : String
  role : String
  joined_at : Nat
  permissions : Option (List String)
deriving Repr, DecidableEq

/-- An entry of `settings.group_admins`.  `added_by`/`added_at` are absent on
the creator's entry and set by `update_group_admins`. -/
structure AdminEntry where
  id : Int
  type : String
  role : String
  permissions : List String
  added_by : Option Int
  added_at : Option Nat
deriving Repr, DecidableEq

/-- The denormalized `last_message` projection on a chat document. -/
structure LastMessage where
  message_id : String
  content : String
  sender_id : String
  sender_type : String
  timestamp : Nat
  message_type : String
deriving Repr, DecidableEq

/-- The removal audit record written by `remove_group_member`. -/
structure RemovalRecord where
  chat_id : String
  user_id : Int
  removed_by : Option Int
  is_leaving : Bool
  reason : Option String
  removed_at : Nat
deriving Repr, DecidableEq

/-- A stored chat room document.  `group_admins` stands for
`settings.group_admins` (the only settings component the modelled operations
read or write); `chat_id` is the optional secondary alias field. -/
structure ChatDoc where
  oid : Nat
  chat_id : Option String
  chat_type : String
  participants : List Participant
  group_admins : List AdminEntry
  unread_counts : List (String × Int)
  last_message : Option LastMessage
  last_activity : Nat
  removed_members : List RemovalRecord
deriving Repr, DecidableEq

/-- A stored group invite document. -/
structure InviteDoc where
  code : String
  chat_id : String
  created_by : Int
  expires_at : Nat
  is_active : Bool
  used_by : Option Int
  used_at : Option Nat
deriving Repr, DecidableEq

/-- The Mongo database state: each collection is a list of documents in
insertion order; `nextOid` generates fresh `_id`s. -/
structure ChatDB where
  chats : List ChatDoc
  messages : List MessageDoc
  invites : List InviteDoc
  removed_members : List RemovalRecord
  nextOid : Nat
deriving Repr, DecidableEq

/-- Mongo `update_one` on a list collection: apply `f` to the first document
matching `p`.  The second component is `modified_count` (0 when the update
leaves the matched document unchanged, as Mongo reports). -/
def updateFirst {α : Type} [DecidableEq α] (p : α → Bool) (f : α → α) : List α → List α × Nat
  | [] => ([], 0)
  | x :: xs =>
    if p x then (if f x = x then (x :: xs, 0) else (f x :: xs, 1))
    else (x :: (updateFirst p f xs).1, (updateFirst p f xs).2)

/-- Mongo `update_many`: apply `f` to every document matching `p`, counting
the actually modified ones. -/
def updateAll {α : Type} [DecidableEq α] (p : α → Bool) (f : α → α) : List α → List α × Nat
  | [] => ([], 0)
  | x :: xs =>
    if p x then
      (if f x = x then (x :: (updateAll p f xs).1, (updateAll p f xs).2)
       else (f x :: (updateAll p f xs).1, (updateAll p f xs).2 + 1))
    else (x :: (updateAll p f xs).1, (updateAll p f xs).2)

/-- Mongo `$addToSet`: append the value unless an identical element is
already present. -/
def addToSet {α : Type} [DecidableEq α] (v : α) (xs : List α) : List α :=
  if v ∈ xs then xs else xs ++ [v]

/-- An `HTTPException(status_code, detail)`. -/
structure HTTPError where
  status_code : Nat
  detail : String
deriving Repr, DecidableEq

namespace ChatService

/-- Model of `ChatService.get_message`: `find_one {_id: ObjectId(message_id)}` (the
`message_id` argument is the target's `_id`). -/
def get_message (message_id : Nat) (db : ChatDB) : Option MessageDoc :=
  db.messages.find? (fun m => m.oid == message_id)

/-- The pydantic `ChatMessage` as routers construct it before calling
`add_message` (only the fields the service reads). -/
structure ChatMessageIn where
  chat_id : String
  sender_id : BVal
  sender_type : String
  content : String
  message_type : String
  gem_id : Option Int
  attachment : Option String
  reply_to : Option ReplyTo
deriving Repr, DecidableEq

/-- Model of `ChatService.add_message`.  The inserted document is built from a fixed
field list (`chat_id`, `sender_id`, `sender_type`, `content`, `message_type`,
`timestamp`, `read_by`, `delivered_to`, `is_deleted`, `is_edited`): the
`reply_to`, `gem_id` and `attachment` fields of the input model are not
copied into the stored document.  `sender_id` is stored through `str(...)`.
The chat's `last_message` projection and `last_activity` are refreshed. -/
def add_message (message : ChatMessageIn) (now : Nat) (db : ChatDB) : MessageDoc × ChatDB :=
  let stored : MessageDoc :=
    { oid := db.nextOid
      chat_id := message.chat_id
      sender_id := .bstr (pyStr message.sender_id)
      sender_type := message.sender_type
      content := message.content
      message_type := message.message_type
      timestamp := now
      read_by := [{ user_id := .bstr (pyStr message.sender_id),
                    user_type := message.sender_type, timestamp := now }]
      delivered_to := []
      is_deleted := false
      is_edited := false
      deleted_for := []
      deleted_by := none
      deleted_at := none
      attachment := none
      gem_id := none
      reply_to := none
      reactions := [] }
  let chats2 := (updateFirst (fun c => toString c.oid == message.chat_id)
      (fun c => { c with
        last_message := some
          { message_id := toString stored.oid, content := message.content,
            sender_id := pyStr message.sender_id, sender_type := message.sender_type,
            timestamp := now, message_type := message.message_type },
        last_activity := now }) db.chats).1
  (stored, { db with
             messages := db.messages ++ [stored], chats := chats2,
             nextOid := db.nextOid + 1 })

/-- Model of `ChatService.delete_message`.  The update query is
`$or [{_id: ...}, {message_id: ...}, {chat_id: ...}]`; stored documents carry
no `message_id` field, so that clause matches nothing, while the `chat_id`
clause matches every message of the same chat; `update_one` then updates the
first matching document of the collection, which need not be the identified
message. -/
def delete_message (message_id : Nat) (user_id : BVal) (user_type : String)
    (delete_for_everyone : Bool) (now : Nat) (db : ChatDB) : Bool × ChatDB :=
  match get_message message_id db with
  | none => (false, db)
  | some m =>
    let q : MessageDoc → Bool := fun d => d.oid == m.oid || d.chat_id == m.chat_id
    let upd : MessageDoc → MessageDoc :=
      if delete_for_everyone then fun d =>
        { d with
          is_deleted := true,
          content := "This message was deleted",
          deleted_at := some now,
          deleted_by := some { user_id := user_id, user_type := user_type, timestamp := now },
          attachment := none }
      else fun d =>
        { d with deleted_for :=
            addToSet { user_id := user_id, user_type := user_type, deleted_at := now } d.deleted_for }
    let r := updateFirst q upd db.messages
    (!(r.2 == 0), { db with messages := r.1 })

/-- Model of `ChatService.get_chat`: first `find_one {chat_id: ...}` on the alias
field, then `find_one {_id: ObjectId(...)}`. -/
def get_chat (chat_id : String) (db : ChatDB) : Option ChatDoc :=
  match db.chats.find? (fun c => c.chat_id == some chat_id) with
  | some c => some c
  | none => db.chats.find? (fun c => toString c.oid == chat_id)

/-- Model of `ChatService.get_chat_details`: `find_one {$or: [{_id}, {chat_id}]}`. -/
def get_chat_details (chat_id : String) (db : ChatDB) : Option ChatDoc :=
  db.chats.find? (fun c => toString c.oid == chat_id || c.chat_id == some chat_id)

/-- Model of `ChatService.get_participant_type`: the `type` of the first participant
whose id printed with `str(...)` equals `str(user_id)`; 404 when the chat is
absent, 403 when the user is not a participant. -/
def get_participant_type (chat_id : String) (user_id : BVal) (db : ChatDB) :
    Except HTTPError String :=
  match get_chat_details chat_id db with
  | none => .error { status_code := 404, detail := "Chat not found" }
  | some chat =>
    match chat.participants.find? (fun p => pyStr p.id == pyStr user_id) with
    | some p => .ok p.type
    | none => .error { status_code := 403, detail := "User not in chat" }

/-- Model of `ChatService.mark_as_read`.  `sender_id` is stored as a string while the
router passes the integer `current_user.user_id`, so the `$ne` and the
`read_by` `$elemMatch` are int-vs-string BSON comparisons. -/
def mark_as_read (chat_id : String) (user_id : BVal) (user_type : String) (now : Nat)
    (db : ChatDB) : Bool × ChatDB :=
  let q : MessageDoc → Bool := fun m =>
    m.chat_id == chat_id && !(m.sender_id == user_id) &&
      !(m.read_by.any (fun e => e.user_id == user_id))
  let upd : MessageDoc → MessageDoc := fun m =>
    { m with read_by :=
        addToSet { user_id := user_id, user_type := user_type, timestamp := now } m.read_by }
  let msgs := (updateAll q upd db.messages).1
  let chats := (updateFirst (fun c => toString c.oid == chat_id)
      (fun c => { c with unread_counts := aset (user_type ++ "_" ++ pyStr user_id) 0 c.unread_counts })
      db.chats).1
  (true, { db with messages := msgs, chats := chats })

/-- The message dict produced by `get_chat_messages` for the response. -/
structure ProcessedMessage where
  message_id : String
  chat_id : String
  sender_id : BVal
  sender_type : String
  content : String
  message_type : String
  timestamp : Nat
  read_by : List ReceiptEntry
  delivered_to : List ReceiptEntry
  reactions : List (String × List ReactionEntry)
  is_edited : Bool
  reply_to : Option ReplyTo
  attachment : Option String
  gem_id : Option Int
deriving Repr, DecidableEq

/-- Stable insertion step for the `sort("timestamp", -1)` cursor order. -/
def insertTsDesc (x : MessageDoc) : List MessageDoc → List MessageDoc
  | [] => [x]
  | y :: ys => if x.timestamp > y.timestamp then x :: y :: ys else y :: insertTsDesc x ys

/-- Model of `sort("timestamp", -1)` on the matched documents. -/
def sortTsDesc : List MessageDoc → List MessageDoc
  | [] => []
  | x :: xs => insertTsDesc x (sortTsDesc xs)

/-- Model of `ChatService.get_chat_messages` (without the `before_id` cursor, which the
modelled claims never pass).  The query's
`$or [{chat_id: chat_id}, {chat_id: str(chat_id)}]` collapses to one clause
since the argument is already a string; a message is excluded when the
viewer's `{user_id, user_type}` pair occurs in its `deleted_for` array;
hard-deleted messages keep flowing with the placeholder content and without
attachment/gem payloads. -/
def get_chat_messages (chat_id : String) (user_id : BVal) (user_type : String)
    (limit : Nat) (db : ChatDB) : List ProcessedMessage :=
  let q : MessageDoc → Bool := fun m =>
    m.chat_id == chat_id &&
      !(m.deleted_for.any (fun e => e.user_id == user_id && e.user_type == user_type))
  let found := (sortTsDesc (db.messages.filter q)).take limit
  found.map (fun m =>
    { message_id := toString m.oid, chat_id := m.chat_id, sender_id := m.sender_id,
      sender_type := m.sender_type,
      content := if m.is_deleted then "This message was deleted" else m.content,
      message_type := m.message_type, timestamp := m.timestamp,
      read_by := m.read_by, delivered_to := m.delivered_to, reactions := m.reactions,
      is_edited := m.is_edited, reply_to := m.reply_to,
      attachment := if m.is_deleted then none else m.attachment,
      gem_id := if m.is_deleted then none else m.gem_id })

/-- Model of `ChatService.mark_messages_as_delivered` (with `message_ids=None`, the
only call shape in the modelled routes).  Appends a delivery entry to every
message of the chat whose `sender_id` differs from `user_id` under BSON
comparison and whose `delivered_to` lacks the viewer's `{user_id, user_type}`
pair, then unconditionally resets the chat's
`unread_counts.{user_type}_{user_id}` key to 0. -/
def mark_messages_as_delivered (chat_id : String) (user_id : BVal) (user_type : String)
    (now : Nat) (db : ChatDB) : Bool × ChatDB :=
  let q : MessageDoc → Bool := fun m =>
    m.chat_id == chat_id && !(m.sender_id == user_id) &&
      !(m.delivered_to.any (fun e => e.user_id == user_id && e.user_type == user_type))
  let upd : MessageDoc → MessageDoc := fun m =>
    { m with delivered_to :=
        addToSet { user_id := user_id, user_type := user_type, timestamp := now } m.delivered_to }
  let r := updateAll q upd db.messages
  let chats := (updateFirst (fun c => toString c.oid == chat_id || c.chat_id == some chat_id)
      (fun c => { c with unread_counts := aset (user_type ++ "_" ++ pyStr user_id) 0 c.unread_counts })
      db.chats).1
  (!(r.2 == 0), { db with messages := r.1, chats := chats })

/-- The `emoji_reactions` update inside `toggle_message_reaction`: remove the
user's entry if present (`list.remove(existing)`), else append
`{user_id, timestamp}`. -/
def toggleEntries (entries : List ReactionEntry) (user_id : Int) (now : Nat) :
    List ReactionEntry :=
  match entries.find? (fun r => r.user_id == user_id) with
  | some r => entries.erase r
  | none => entries ++ [{ user_id := user_id, timestamp := now }]

/-- The new `reactions` mapping `toggle_message_reaction` computes: toggle
the user's entry under the emoji, prune the emoji key when its entry list
becomes empty, else write the list back under the key. -/
def toggleReactions (reacts : List (String × List ReactionEntry)) (user_id : Int)
    (emoji : String) (now : Nat) : List (String × List ReactionEntry) :=
  if (toggleEntries ((alookup emoji reacts).getD []) user_id now).isEmpty then
    aremove emoji reacts
  else aset emoji (toggleEntries ((alookup emoji reacts).getD []) user_id now) reacts

/-- Model of `ChatService.toggle_message_reaction`: read the message, compute the
toggled mapping, and `$set` the whole mapping back on the message found by
`_id`. -/
def toggle_message_reaction (message_id : Nat) (user_id : Int) (emoji : String)
    (now : Nat) (db : ChatDB) : Except String ((List (String × List ReactionEntry)) × ChatDB) :=
  match get_message message_id db with
  | none => .error "Message not found"
  | some m =>
    .ok (toggleReactions m.reactions user_id emoji now,
      { db with messages := (updateFirst (fun d => d.oid == message_id)
          (fun d => { d with reactions := toggleReactions m.reactions user_id emoji now })
          db.messages).1 })

/-- Model of `ChatService.is_group_admin`: `find_one {_id, settings.group_admins
$elemMatch {id, role: "admin"}}`. -/
def is_group_admin (chat_id : String) (user_id : Int) (db : ChatDB) : Bool :=
  (db.chats.find? (fun c => toString c.oid == chat_id &&
      c.group_admins.any (fun a => a.id == user_id && a.role == "admin"))).isSome

/-- The dict returned by `update_group_admins`. -/
structure AdminUpdateResult where
  success : Bool
  total_admins : Nat
  newly_added : Nat
  admin_ids : List Int
deriving Repr, DecidableEq

/-- The admin entry `update_group_admins` appends for a newly granted id. -/
def mkAdminEntry (i current_user_id : Int) (now : Nat) : AdminEntry :=
  { id := i, type := "user", role := "admin",
    permissions := ["invite", "add_members", "remove_members", "manage_settings"],
    added_by := some current_user_id, added_at := some now }

/-- Model of `ChatService.update_group_admins`: keep every existing admin entry,
re-append the caller when they are a current admin missing from the request,
and append a fresh admin entry for every requested id not already admin. -/
def update_group_admins (chat_id : String) (admin_ids : List Int) (current_user_id : Int)
    (now : Nat) (db : ChatDB) : Except String (AdminUpdateResult × ChatDB) :=
  match db.chats.find? (fun c => toString c.oid == chat_id) with
  | none => .error "Chat not found"
  | some chat =>
    let current_admins := chat.group_admins
    let current_admin_ids := current_admins.map (fun a => a.id)
    let admin_ids2 :=
      if !(admin_ids.contains current_user_id) && current_admin_ids.contains current_user_id then
        admin_ids ++ [current_user_id]
      else admin_ids
    let new_admins : List AdminEntry :=
      (admin_ids2.filter (fun i => !(current_admin_ids.contains i))).map
        (fun i => mkAdminEntry i current_user_id now)
    let updated_admins := current_admins ++ new_admins
    let r := updateFirst (fun c => toString c.oid == chat_id)
        (fun c => { c with group_admins := updated_admins }) db.chats
    .ok ({ success := !(r.2 == 0), total_admins := updated_admins.length,
           newly_added := new_admins.length,
           admin_ids := updated_admins.map (fun a => a.id) },
         { db with chats := r.1 })

/-- Model of `ChatService.get_invite`: `find_one {code, is_active: True, expires_at:
{$gt: now}}`.  Note `used_by` is not part of the query. -/
def get_invite (invite_code : String) (now : Nat) (db : ChatDB) : Option InviteDoc :=
  db.invites.find? (fun i => i.code == invite_code && i.is_active && decide (now < i.expires_at))

/-- The participant entry `add_chat_participant` inserts (no `permissions`
key). -/
def newMemberEntry (user_id : Int) (user_type role : String) (now : Nat) : Participant :=
  { id := .bint user_id, type := user_type, role := role, joined_at := now,
    permissions := none }

/-- Model of `ChatService.add_chat_participant`: `$addToSet` of the member entry on the
chat found by `_id`. -/
def add_chat_participant (chat_id : String) (user_id : Int) (user_type : String)
    (role : String) (now : Nat) (db : ChatDB) : Bool × ChatDB :=
  let r := updateFirst (fun c => toString c.oid == chat_id)
      (fun c => { c with
        participants := addToSet (newMemberEntry user_id user_type role now) c.participants })
      db.chats
  (!(r.2 == 0), { db with chats := r.1 })

/-- Model of `ChatService.mark_invite_used`: one `update_one` on the invite found by
`code` setting `is_active=False`, `used_by`, `used_at` together. -/
def mark_invite_used (invite_code : String) (used_by : Int) (now : Nat) (db : ChatDB) :
    Bool × ChatDB :=
  let r := updateFirst (fun i => i.code == invite_code)
      (fun i => { i with is_active := false, used_by := some used_by, used_at := some now })
      db.invites
  (!(r.2 == 0), { db with invites := r.1 })

/-- Model of `ChatService.remove_group_member`: insert the audit record in the
`removed_members` collection, then `$pull` the participant (every array entry
with that integer id) and `$push` the record onto the chat document. -/
def remove_group_member (chat_id : String) (user_id : Int) (removed_by : Option Int)
    (is_leaving : Bool) (reason : Option String) (now : Nat) (db : ChatDB) : Bool × ChatDB :=
  let removal : RemovalRecord :=
    { chat_id := chat_id, user_id := user_id, removed_by := removed_by,
      is_leaving := is_leaving, reason := reason, removed_at := now }
  let db1 := { db with removed_members := db.removed_members ++ [removal] }
  let r := updateFirst (fun c => toString c.oid == chat_id)
      (fun c => { c with
        participants := c.participants.filter (fun p => !(p.id == BVal.bint user_id)),
        removed_members := c.removed_members ++ [removal] }) db1.chats
  (!(r.2 == 0), { db1 with chats := r.1 })

/-- Model of `ChatService.get_other_admins`: the admin entries whose id printed with
`str(...)` differs from the caller's. -/
def get_other_admins (chat_id : String) (current_admin_id : Int) (db : ChatDB) :
    List AdminEntry :=
  match get_chat chat_id db with
  | none => []
  | some chat =>
    chat.group_admins.filter (fun a => !(toString a.id == toString current_admin_id))

end ChatService

/-! ## HTTP routes (`routers/chat/chat.py`)

Each route is a function of the authenticated `current_user.user_id` (an
integer, per the SQL `User` model), the request data, the database and the
connection registry.  A route returns its response (or the surfaced
`HTTPException`) together with the post-call database and registry states —
in Python the mutations on the global stores persist even when an exception
is then raised, so the states are returned in every case. -/

/-- Model of `str(e)` for a Python `RuntimeError`. -/
def pyErrStr : PyError → String
  | .runtimeError m => m

/-- Model of `str(e)` for a FastAPI `HTTPException`: `f"{status_code}: {detail}"`. -/
def httpStr (e : HTTPError) : String :=
  toString e.status_code ++ ": " ++ e.detail

/-- Outcome of a route call: response or surfaced exception, plus the
post-call store states. -/
structure RouteResult (ρ : Type) where
  response : Except HTTPError ρ
  db : ChatDB
  ws : WSState

/-- Model of `list(set(xs))` on request ids.  Python's set iteration order is
unspecified; the model fixes the first-occurrence order, and every claim
below only depends on the resulting membership. -/
def dedupFirstAux {α : Type} [DecidableEq α] (seen : List α) : List α → List α
  | [] => []
  | x :: xs => if x ∈ seen then dedupFirstAux seen xs else x :: dedupFirstAux (x :: seen) xs

def dedupFirst {α : Type} [DecidableEq α] (xs : List α) : List α :=
  dedupFirstAux [] xs

namespace ChatRouter

/-- A route outcome surfacing `HTTPException(status, detail)` with the given
post-call states. -/
def errResult {ρ : Type} (status : Nat) (detail : String) (db : ChatDB) (ws : WSState) :
    RouteResult ρ :=
  { response := .error { status_code := status, detail := detail }, db := db, ws := ws }

/-- A route outcome returning normally with the given post-call states. -/
def okResult {ρ : Type} (v : ρ) (db : ChatDB) (ws : WSState) : RouteResult ρ :=
  { response := .ok v, db := db, ws := ws }

/-- Model of `DELETE /messages/{message_id}` (chat.py `delete_message`).  The
`updated_message` re-read before the broadcast is omitted (read-only). -/
def delete_message (message_id : Nat) (delete_for_everyone : Bool) (current_user_id : Int)
    (now : Nat) (db : ChatDB) (ws : WSState) : RouteResult String :=
  match ChatService.get_message message_id db with
  | none => errResult 404 "Message not found" db ws
  | some message =>
    match ChatService.get_chat_details message.chat_id db with
    | none => errResult 404 "Chat not found" db ws
    | some chat =>
      let is_participant :=
        chat.participants.any (fun p => pyStr p.id == toString current_user_id)
      if !is_participant then
        errResult 403 "You are not a participant in this chat" db ws
      else
        let is_sender := pyStr message.sender_id == toString current_user_id
        if delete_for_everyone && !is_sender then
          errResult 403
            (if chat.chat_type == "dealer_chat" then
                "Only the sender can delete messages for everyone in dealer chats"
              else "Only the sender can delete messages for everyone") db ws
        else
          match ChatService.get_participant_type message.chat_id (.bint current_user_id) db with
          | .error e => errResult e.status_code e.detail db ws
          | .ok user_type =>
            let r := ChatService.delete_message message.oid (.bint current_user_id) user_type
                delete_for_everyone now db
            if !r.1 then
              errResult 400 "Failed to delete message" r.2 ws
            else
              let b := ConnectionManager.broadcast_to_chat message.chat_id "message_deleted"
                  (some ("user_" ++ toString current_user_id)) ws
              match b.err with
              | some e => errResult 500 ("Error deleting message: " ++ pyErrStr e) r.2 b.state
              | none => okResult "Message deleted successfully" r.2 b.state

/-- Model of `GET /{chat_id}/messages` (chat.py `get_chat_messages`): after checking
the chat and the caller's participation, fetch the visible messages and then
call `mark_messages_as_delivered` for the caller (no broadcast). -/
def get_chat_messages (chat_id : String) (limit : Nat) (current_user_id : Int)
    (now : Nat) (db : ChatDB) (ws : WSState) :
    RouteResult (List ChatService.ProcessedMessage) :=
  match ChatService.get_chat chat_id db with
  | none => errResult 404 "Chat not found" db ws
  | some chat =>
    let is_participant :=
      chat.participants.any (fun p => pyStr p.id == toString current_user_id)
    if !is_participant then
      errResult 403 "You are not a participant in this chat" db ws
    else
      match ChatService.get_participant_type chat_id (.bint current_user_id) db with
      | .error e => errResult e.status_code e.detail db ws
      | .ok participant_type =>
        let msgs := ChatService.get_chat_messages chat_id (.bint current_user_id)
            participant_type limit db
        let r := ChatService.mark_messages_as_delivered chat_id (.bint current_user_id)
            participant_type now db
        okResult msgs r.2 ws

/-- Model of `PUT /group/{chat_id}/admins` (chat.py `update_group_admins`). -/
def update_group_admins (chat_id : String) (admin_ids : List Int) (current_user_id : Int)
    (now : Nat) (db : ChatDB) (ws : WSState) : RouteResult ChatService.AdminUpdateResult :=
  match ChatService.get_chat chat_id db with
  | none => errResult 404 "Chat not found" db ws
  | some chat =>
    if !(chat.chat_type == "group_chat") then
      errResult 400 "This operation is only valid for group chats" db ws
    else if !(ChatService.is_group_admin chat_id current_user_id db) then
      errResult 403 "Only group admins can update admin list" db ws
    else if admin_ids.isEmpty then
      errResult 400 "Admin IDs list cannot be empty" db ws
    else
      let participant_strs := chat.participants.map (fun p => pyStr p.id)
      let invalid_admins := admin_ids.filter (fun a => !(participant_strs.contains (toString a)))
      if !invalid_admins.isEmpty then
        errResult 400 "Users are not participants in this chat" db ws
      else
        let admin_ids2 :=
          if !(admin_ids.contains current_user_id) then admin_ids ++ [current_user_id]
          else admin_ids
        match ChatService.update_group_admins chat_id (dedupFirst admin_ids2)
            current_user_id now db with
        | .error _ =>
          errResult 500 "Failed to update group admins. Please try again later." db ws
        | .ok (result, db2) =>
          let b := ConnectionManager.broadcast_to_chat chat_id "admins_updated" none ws
          match b.err with
          | some _ =>
            errResult 500 "Failed to update group admins. Please try again later." db2 b.state
          | none => okResult result db2 b.state

/-- The response of `join_group_via_invite`. -/
inductive JoinStatus where
  | already_member
  | joined
deriving Repr, DecidableEq

/-- Model of `POST /join/{invite_code}` (chat.py `join_group_via_invite`): after the
validity checks, the member add and the invite consumption are two separate
store updates issued one after the other. -/
def join_group_via_invite (invite_code : String) (current_user_id : Int) (now : Nat)
    (db : ChatDB) (ws : WSState) : RouteResult (String × JoinStatus) :=
  match ChatService.get_invite invite_code now db with
  | none => errResult 404 "Invite not found or expired" db ws
  | some invite =>
    if now > invite.expires_at then
      errResult 400 "Invite has expired" db ws
    else
      match ChatService.get_chat invite.chat_id db with
      | none => errResult 404 "Chat not found" db ws
      | some chat =>
        let is_participant :=
          chat.participants.any (fun p => pyStr p.id == toString current_user_id)
        if is_participant then
          okResult (invite.chat_id, JoinStatus.already_member) db ws
        else
          let r1 := ChatService.add_chat_participant invite.chat_id current_user_id
              "user" "member" now db
          let r2 := ChatService.mark_invite_used invite_code current_user_id now r1.2
          okResult (invite.chat_id, JoinStatus.joined) r2.2 ws

/-- Model of `POST /{chat_id}/messages/{message_id}/reply` (chat.py
`reply_to_message`).  The handler's only `except` clause turns every
exception — the 404 for an absent original included — into a 500 wrapping
`str(e)`.  The `reply_to` snapshot is built here and passed to
`add_message`. -/
def reply_to_message (chat_id : String) (message_id : Nat) (content : String)
    (message_type : String) (gem_id : Option Int) (attachment : Option String)
    (current_user_id : Int) (now : Nat) (db : ChatDB) (ws : WSState) :
    RouteResult MessageDoc :=
  match ChatService.get_message message_id db with
  | none =>
    errResult 500
      ("Error replying to message: " ++
        httpStr { status_code := 404, detail := "Original message not found" }) db ws
  | some original =>
    match ChatService.get_participant_type chat_id (.bint current_user_id) db with
    | .error e =>
      errResult 500 ("Error replying to message: " ++ httpStr e) db ws
    | .ok sender_type =>
      let msgIn : ChatService.ChatMessageIn :=
        { chat_id := chat_id, sender_id := .bint current_user_id, sender_type := sender_type,
          content := content, message_type := message_type,
          gem_id := gem_id, attachment := attachment,
          reply_to := some
            { message_id := toString message_id, content := original.content,
              sender_id := original.sender_id } }
      let r := ChatService.add_message msgIn now db
      let b := ConnectionManager.broadcast_to_chat chat_id "new_reply" none ws
      match b.err with
      | some e =>
        errResult 500 ("Error replying to message: " ++ pyErrStr e) r.2 b.state
      | none => okResult r.1 r.2 b.state

/-- Model of `POST /group/{chat_id}/leave` (chat.py `leave_group`).  The sole-admin
guard raises `HTTPException(400, ...)`, but the handler's only `except`
clause catches every `Exception` — `HTTPException` included — and re-raises
it as a 500 wrapping `str(e)`. -/
def leave_group (chat_id : String) (reason : Option String) (current_user_id : Int)
    (now : Nat) (db : ChatDB) (ws : WSState) : RouteResult String :=
  let is_admin := ChatService.is_group_admin chat_id current_user_id db
  if is_admin && (ChatService.get_other_admins chat_id current_user_id db).isEmpty then
    errResult 500
      ("Error leaving group: " ++ httpStr
        { status_code := 400,
          detail := "You are the only admin. Please assign another admin before leaving" }) db ws
  else
    let r := ChatService.remove_group_member chat_id current_user_id none true reason now db
    let b := ConnectionManager.broadcast_to_chat chat_id "member_left" none ws
    match b.err with
    | some e =>
      errResult 500 ("Error leaving group: " ++ pyErrStr e) r.2 b.state
    | none => okResult "Left group successfully" r.2 b.state

end ChatRouter

/-! ## Statement-level projections and concrete fixtures -/

/-- Whether the chat found by its primary id has a participant with the given
integer user id, compared through `str(...)` the way the routes do. -/
def isParticipantOfChat (chat_id : String) (uid : Int) (db : ChatDB) : Bool :=
  match db.chats.find? (fun c => toString c.oid == chat_id) with
  | some c => c.participants.any (fun p => pyStr p.id == toString uid)
  | none => false

/-- The admin id list of the chat found by its primary id. -/
def chatAdminIds (chat_id : String) (db : ChatDB) : Option (List Int) :=
  (db.chats.find? (fun c => toString c.oid == chat_id)).map
    (fun c => c.group_admins.map (fun a => a.id))

/-- The viewer's unread counter on the chat found by primary id or alias
(`none` = chat absent, `some none` = key absent). -/
def chatUnreadCounter (chat_id key : String) (db : ChatDB) : Option (Option Int) :=
  (db.chats.find? (fun c => toString c.oid == chat_id || c.chat_id == some chat_id)).map
    (fun c => alookup key c.unread_counts)

/-- An empty connection registry (no broadcast targets). -/
def wsEmpty : WSState := { active_connections := [], chat_rooms := [] }

/-- A participant entry carrying an integer user id. -/
def userMember (uid : Int) (role : String) : Participant :=
  { id := .bint uid, type := "user", role := role, joined_at := 0, permissions := none }

/-- An admin entry as group creation/`update_group_admins` stores it. -/
def adminEntry (uid : Int) : AdminEntry :=
  { id := uid, type := "user", role := "admin",
    permissions := ["invite", "add_members", "remove_members", "manage_settings"],
    added_by := none, added_at := none }

/-- A stored text message exactly as `add_message` inserts it. -/
def mkTextMsg (oid : Nat) (chat_id sender content : String) (ts : Nat) : MessageDoc :=
  { oid := oid, chat_id := chat_id, sender_id := .bstr sender, sender_type := "user",
    content := content, message_type := "text", timestamp := ts,
    read_by := [{ user_id := .bstr sender, user_type := "user", timestamp := ts }],
    delivered_to := [], is_deleted := false, is_edited := false, deleted_for := [],
    deleted_by := none, deleted_at := none, attachment := none, gem_id := none,
    reply_to := none, reactions := [] }

/-- Group chat 1 with participants 7 and 2 and an unread counter for user 7. -/
def twoMemberChat : ChatDoc :=
  { oid := 1, chat_id := none, chat_type := "group_chat",
    participants := [userMember 7 "member", userMember 2 "member"],
    group_admins := [], unread_counts := [("user_7", 2)], last_message := none,
    last_activity := 0, removed_members := [] }

/-- Chat 1 with two messages: message 10 ("first message", sender 2) was
inserted before message 11 ("second message", sender 7). -/
def dbTwoMessages : ChatDB :=
  { chats := [twoMemberChat],
    messages := [mkTextMsg 10 "1" "2" "first message" 1,
                 mkTextMsg 11 "1" "7" "second message" 2],
    invites := [], removed_members := [], nextOid := 12 }

/-- Chat 1 with one message ("hello" from sender 5) to reply to. -/
def dbReply : ChatDB :=
  { chats := [twoMemberChat],
    messages := [mkTextMsg 10 "1" "5" "hello" 1],
    invites := [], removed_members := [], nextOid := 11 }

/-- Group chat 3 with members 1, 2, 3 where 1 is the sole admin. -/
def soloAdminChat : ChatDoc :=
  { oid := 3, chat_id := none, chat_type := "group_chat",
    participants := [userMember 1 "admin", userMember 2 "member", userMember 3 "member"],
    group_admins := [adminEntry 1], unread_counts := [], last_message := none,
    last_activity := 0, removed_members := [] }

def dbSoloAdmin : ChatDB :=
  { chats := [soloAdminChat], messages := [], invites := [], removed_members := [],
    nextOid := 4 }

/-- The same group after a second admin (user 2) has been granted. -/
def dbTwoAdmins : ChatDB :=
  { chats := [{ soloAdminChat with group_admins := [adminEntry 1, adminEntry 2] }],
    messages := [], invites := [], removed_members := [], nextOid := 4 }

/-- Group chat 5 (sole participant/admin 1) with a live invite codeX. -/
def inviteChat : ChatDoc :=
  { oid := 5, chat_id := none, chat_type := "group_chat",
    participants := [userMember 1 "admin"], group_admins := [adminEntry 1],
    unread_counts := [], last_message := none, last_activity := 0, removed_members := [] }

def inviteX : InviteDoc :=
  { code := "codeX", chat_id := "5", created_by := 1, expires_at := 100,
    is_active := true, used_by := none, used_at := none }

def dbInvite : ChatDB :=
  { chats := [inviteChat], messages := [], invites := [inviteX], removed_members := [],
    nextOid := 6 }

/-- Group chat 9 of the C5 scenario: participants A=1 (admin), B=2, C=3. -/
def scenarioChat : ChatDoc :=
  { oid := 9, chat_id := none, chat_type := "group_chat",
    participants := [userMember 1 "admin", userMember 2 "member", userMember 3 "member"],
    group_admins := [adminEntry 1], unread_counts := [], last_message := none,
    last_activity := 0, removed_members := [] }

def dbScenario : ChatDB :=
  { chats := [scenarioChat], messages := [], invites := [], removed_members := [],
    nextOid := 10 }

/-! ## Helper lemmas on the store primitives -/

theorem alookup_aset {β : Type} (k : String) (v : β) (l : List (String × β)) :
    alookup k (aset k v l) = some v := by
  induction l with
  | nil => simp [aset, alookup]
  | cons x xs ih =>
    by_cases h : x.1 = k
    · simp [aset, alookup, h]
    · simp [aset, alookup, h, ih]

theorem aset_aset {β : Type} (k : String) (v1 v2 : β) (l : List (String × β)) :
    aset k v2 (aset k v1 l) = aset k v2 l := by
  induction l with
  | nil => simp [aset]
  | cons x xs ih =>
    by_cases h : x.1 = k
    · simp [aset, h]
    · simp [aset, h, ih]

theorem aset_self {β : Type} (k : String) (v : β) (l : List (String × β))
    (h : alookup k l = some v) : aset k v l = l := by
  induction l with
  | nil => simp [alookup] at h
  | cons x xs ih =>
    obtain ⟨k2, w⟩ := x
    by_cases hx : k2 = k
    · simp [alookup, hx] at h
      simp [aset, hx, h]
    · simp [alookup, hx] at h
      simp [aset, hx, ih h]

theorem aremove_aset_none {β : Type} (k : String) (v : β) (l : List (String × β))
    (h : alookup k l = none) : aremove k (aset k v l) = l := by
  induction l with
  | nil => simp [aset, aremove]
  | cons x xs ih =>
    by_cases hx : x.1 = k
    · simp [alookup, hx] at h
    · simp [alookup, hx] at h
      simp [aset, aremove, hx, ih h]

theorem find?_updateFirst {α : Type} [DecidableEq α] (p : α → Bool) (f : α → α)
    (hp : ∀ x, p (f x) = p x) (l : List α) (c : α) (h : l.find? p = some c) :
    ((updateFirst p f l).1).find? p = some (f c) := by
  induction l with
  | nil => simp [List.find?] at h
  | cons x xs ih =>
    by_cases hx : p x = true
    · rw [List.find?_cons_of_pos _ hx] at h
      cases h
      by_cases hfix : f c = c
      · have hl : (updateFirst p f (c :: xs)).1 = c :: xs := by
          rw [updateFirst, if_pos hx, if_pos hfix]
        rw [hl, List.find?_cons_of_pos _ hx, hfix]
      · have hl : (updateFirst p f (c :: xs)).1 = f c :: xs := by
          rw [updateFirst, if_pos hx, if_neg hfix]
        rw [hl]
        have hpf : p (f c) = true := by rw [hp]; exact hx
        exact List.find?_cons_of_pos _ hpf
    · rw [List.find?_cons_of_neg _ hx] at h
      have hcons : (updateFirst p f (x :: xs)).1 = x :: (updateFirst p f xs).1 := by
        rw [updateFirst, if_neg hx]
      rw [hcons, List.find?_cons_of_neg _ hx]
      exact ih h

theorem updateFirst_restore {α : Type} [DecidableEq α] (p : α → Bool) (f g : α → α)
    (l : List α) (c : α) (hp : ∀ x, p (g x) = p x) (hfind : l.find? p = some c)
    (hfg : f (g c) = c) :
    (updateFirst p f (updateFirst p g l).1).1 = l := by
  induction l with
  | nil => simp [List.find?] at hfind
  | cons x xs ih =>
    by_cases hx : p x = true
    · rw [List.find?_cons_of_pos _ hx] at hfind
      cases hfind
      by_cases hgx : g c = c
      · have h1 : (updateFirst p g (c :: xs)).1 = c :: xs := by
          rw [updateFirst, if_pos hx, if_pos hgx]
        have hfx : f c = c := by
          have hq := hfg
          rw [hgx] at hq
          exact hq
        rw [h1, updateFirst, if_pos hx, if_pos hfx]
      · have h1 : (updateFirst p g (c :: xs)).1 = g c :: xs := by
          rw [updateFirst, if_pos hx, if_neg hgx]
        have hpg : p (g c) = true := by rw [hp]; exact hx
        have heq : ¬(f (g c) = g c) := by
          rw [hfg]
          intro hc
          exact hgx hc.symm
        rw [h1, updateFirst, if_pos hpg, if_neg heq, hfg]
    · rw [List.find?_cons_of_neg _ hx] at hfind
      have h1 : (updateFirst p g (x :: xs)).1 = x :: (updateFirst p g xs).1 := by
        rw [updateFirst, if_neg hx]
      have h2 : (updateFirst p f (x :: (updateFirst p g xs).1)).1 =
          x :: (updateFirst p f (updateFirst p g xs).1).1 := by
        rw [updateFirst, if_neg hx]
      rw [h1, h2, ih hfind]

theorem alookup_mem {β : Type} (k : String) (v : β) (l : List (String × β))
    (h : alookup k l = some v) : (k, v) ∈ l := by
  induction l with
  | nil => simp [alookup] at h
  | cons x xs ih =>
    obtain ⟨k2, w⟩ := x
    by_cases hk : k2 = k
    · simp [alookup, hk] at h
      subst hk
      subst h
      exact List.mem_cons_self _ _
    · simp [alookup, hk] at h
      exact List.mem_cons_of_mem _ (ih h)

theorem isEmpty_append_singleton {α : Type} (l : List α) (v : α) :
    (l ++ [v]).isEmpty = false := by
  cases l <;> rfl

theorem find?_append_left_none {α : Type} (p : α → Bool) (l1 l2 : List α)
    (h : ∀ x ∈ l1, ¬(p x = true)) : (l1 ++ l2).find? p = l2.find? p := by
  induction l1 with
  | nil => rfl
  | cons x xs ih =>
    rw [List.cons_append, List.find?_cons_of_neg _ (h x (List.mem_cons_self x xs))]
    exact ih (fun y hy => h y (List.mem_cons_of_mem x hy))

theorem updateAll_forall {α : Type} [DecidableEq α] {p : α → Bool} {f : α → α}
    {Q : α → Prop}
    (h1 : ∀ x, p x = true → Q (f x)) (h2 : ∀ x, p x = false → Q x) :
    ∀ (l : List α), ∀ y ∈ (updateAll p f l).1, Q y := by
  intro l
  induction l with
  | nil => intro y hy; simp [updateAll] at hy
  | cons x xs ih =>
    intro y hy
    by_cases hx : p x = true
    · by_cases hfx : f x = x
      · have hl : (updateAll p f (x :: xs)).1 = x :: (updateAll p f xs).1 := by
          rw [updateAll, if_pos hx, if_pos hfx]
        rw [hl] at hy
        rcases List.mem_cons.mp hy with h | h
        · subst h
          have hq := h1 y hx
          rwa [hfx] at hq
        · exact ih y h
      · have hl : (updateAll p f (x :: xs)).1 = f x :: (updateAll p f xs).1 := by
          rw [updateAll, if_pos hx, if_neg hfx]
        rw [hl] at hy
        rcases List.mem_cons.mp hy with h | h
        · subst h; exact h1 x hx
        · exact ih y h
    · have hl : (updateAll p f (x :: xs)).1 = x :: (updateAll p f xs).1 := by
        rw [updateAll, if_neg hx]
      rw [hl] at hy
      rcases List.mem_cons.mp hy with h | h
      · subst h; exact h2 y (by simpa using hx)
      · exact ih y h

theorem mem_dedupFirstAux {α : Type} [DecidableEq α] (seen : List α) (l : List α) (x : α) :
    x ∈ dedupFirstAux seen l ↔ x ∈ l ∧ x ∉ seen := by
  induction l generalizing seen with
  | nil => simp [dedupFirstAux]
  | cons y ys ih =>
    by_cases hy : y ∈ seen
    · rw [dedupFirstAux, if_pos hy, ih]
      constructor
      · rintro ⟨h1, h2⟩
        exact ⟨List.mem_cons_of_mem y h1, h2⟩
      · rintro ⟨h1, h2⟩
        rcases List.mem_cons.mp h1 with h | h
        · subst h; exact absurd hy h2
        · exact ⟨h, h2⟩
    · rw [dedupFirstAux, if_neg hy]
      constructor
      · intro h
        rcases List.mem_cons.mp h with h | h
        · subst h; exact ⟨List.mem_cons_self x ys, hy⟩
        · rcases (ih (y :: seen)).mp h with ⟨h1, h2⟩
          refine ⟨List.mem_cons_of_mem y h1, fun hc => h2 (List.mem_cons_of_mem y hc)⟩
      · rintro ⟨h1, h2⟩
        rcases List.mem_cons.mp h1 with h | h
        · subst h; exact List.mem_cons_self x _
        · by_cases hxy : x = y
          · subst hxy; exact List.mem_cons_self x _
          · refine List.mem_cons_of_mem y ((ih (y :: seen)).mpr ⟨h, ?_⟩)
            intro hc
            rcases List.mem_cons.mp hc with h3 | h3
            · exact hxy h3
            · exact h2 h3

theorem mem_dedupFirst {α : Type} [DecidableEq α] (l : List α) (x : α) :
    x ∈ dedupFirst l ↔ x ∈ l := by
  rw [dedupFirst, mem_dedupFirstAux]
  simp

theorem nodup_dedupFirstAux {α : Type} [DecidableEq α] (seen : List α) (l : List α) :
    (dedupFirstAux seen l).Nodup := by
  induction l generalizing seen with
  | nil => simp [dedupFirstAux]
  | cons y ys ih =>
    by_cases hy : y ∈ seen
    · rw [dedupFirstAux, if_pos hy]; exact ih seen
    · rw [dedupFirstAux, if_neg hy]
      refine List.Nodup.cons ?_ (ih (y :: seen))
      intro hc
      have := (mem_dedupFirstAux (y :: seen) ys y).mp hc
      exact this.2 (List.mem_cons_self y seen)

theorem nodup_dedupFirst {α : Type} [DecidableEq α] (l : List α) :
    (dedupFirst l).Nodup :=
  nodup_dedupFirstAux [] l

theorem addToSet_any {α : Type} [DecidableEq α] (v : α) (l : List α) (q : α → Bool)
    (hv : q v = true) : (addToSet v l).any q = true := by
  rw [addToSet]
  by_cases h : v ∈ l
  · rw [if_pos h]
    exact List.any_eq_true.mpr ⟨v, h, hv⟩
  · rw [if_neg h]
    exact List.any_eq_true.mpr ⟨v, List.mem_append_right l (List.mem_singleton.mpr rfl), hv⟩

/-- After deactivating the first invite with a given code in a collection with
pairwise distinct codes, no redeemable invite with that code remains. -/
theorem get_invite_none_after_deactivate (code : String) (now : Nat) (uid : Int)
    (l : List InviteDoc) (hnd : (l.map (fun i => i.code)).Nodup) :
    ((updateFirst (fun i => i.code == code)
        (fun i => { i with is_active := false, used_by := some uid, used_at := some now })
        l).1).find?
      (fun i => i.code == code && i.is_active && decide (now < i.expires_at)) = none := by
  induction l with
  | nil => simp [updateFirst]
  | cons x xs ih =>
    rw [List.map_cons, List.nodup_cons] at hnd
    by_cases hx : (x.code == code) = true
    · have hxc : x.code = code := by simpa using hx
      have hnone : xs.find?
          (fun i => i.code == code && i.is_active && decide (now < i.expires_at)) = none := by
        refine List.find?_eq_none.mpr fun i hi => ?_
        have hic : i.code ≠ code := by
          intro hc
          have hmem : i.code ∈ xs.map (fun j => j.code) :=
            List.mem_map_of_mem (fun j => j.code) hi
          rw [hc, ← hxc] at hmem
          exact hnd.1 hmem
        simp only [Bool.and_eq_true, beq_iff_eq]
        intro hcon
        exact hic hcon.1.1
      by_cases hfx : ({ x with is_active := false, used_by := some uid, used_at := some now } : InviteDoc) = x
      · have hl : (updateFirst (fun i => i.code == code)
            (fun i => { i with is_active := false, used_by := some uid, used_at := some now })
            (x :: xs)).1 = x :: xs := by
          rw [updateFirst, if_pos hx, if_pos hfx]
        have hia : x.is_active = false := by
          have hcg := congrArg InviteDoc.is_active hfx
          simpa using hcg.symm
        have hpx : ¬((fun i : InviteDoc =>
            i.code == code && i.is_active && decide (now < i.expires_at)) x = true) := by
          simp [hia]
        rw [hl, @List.find?_cons_of_neg _
          (fun i => i.code == code && i.is_active && decide (now < i.expires_at)) x xs hpx]
        exact hnone
      · have hl : (updateFirst (fun i => i.code == code)
            (fun i => { i with is_active := false, used_by := some uid, used_at := some now })
            (x :: xs)).1 =
            { x with is_active := false, used_by := some uid, used_at := some now } :: xs := by
          rw [updateFirst, if_pos hx, if_neg hfx]
        have hpx : ¬((fun i : InviteDoc =>
            i.code == code && i.is_active && decide (now < i.expires_at))
              { x with is_active := false, used_by := some uid, used_at := some now } = true) := by
          simp
        rw [hl, @List.find?_cons_of_neg _
          (fun i => i.code == code && i.is_active && decide (now < i.expires_at))
          ({ x with is_active := false, used_by := some uid, used_at := some now }) xs hpx]
        exact hnone
    · have hl : (updateFirst (fun i => i.code == code)
          (fun i => { i with is_active := false, used_by := some uid, used_at := some now })
          (x :: xs)).1 = x :: (updateFirst (fun i => i.code == code)
            (fun i => { i with is_active := false, used_by := some uid, used_at := some now })
            xs).1 := by
        rw [updateFirst, if_neg hx]
      have hpx : ¬((fun i : InviteDoc =>
          i.code == code && i.is_active && decide (now < i.expires_at)) x = true) := by
        simp only [Bool.and_eq_true]
        intro hc
        exact hx hc.1.1
      rw [hl, @List.find?_cons_of_neg _
        (fun i => i.code == code && i.is_active && decide (now < i.expires_at)) x _ hpx]
      exact ih hnd.2

/-! ## Claim theorems -/

/-- C1: the claim says a send failure during `broadcast_to_chat` disconnects
only the failing connection while delivery proceeds to every remaining
member and no error reaches the caller.  On the code, the except-branch's
`disconnect` discards the failing member from the very set being iterated,
so CPython raises `RuntimeError` at the next iterator step: in a room with
members c1 (dead socket) and c2 (live socket), nothing is delivered to c2
when c1 is iterated first, and the error propagates to the caller in both
iteration orders. -/
theorem c1_broadcast_failure_aborts_fanout :
    (ConnectionManager.broadcast_to_chat "chat_a" "payload" none c1FailFirst).err =
        some (PyError.runtimeError "Set changed size during iteration") ∧
      (ConnectionManager.broadcast_to_chat "chat_a" "payload" none c1FailFirst).sent = [] ∧
      (ConnectionManager.broadcast_to_chat "chat_a" "payload" none c1FailLast).err =
        some (PyError.runtimeError "Set changed size during iteration") ∧
      (ConnectionManager.broadcast_to_chat "chat_a" "payload" none c1FailLast).sent =
        [("c2", "payload")] :=
  ⟨rfl, rfl, rfl, rfl⟩

/-- C3: the claim says a reply is persisted with a `reply_to` snapshot of the
original message.  On the code, the route builds the snapshot but
`add_message` inserts a fixed field list that drops it: replying to existing
message 10 stores message 11 with no `reply_to` at all (and the response
also lacks it), while a reply to an absent original is surfaced as a 500
wrapping the internal 404. -/
theorem c3_reply_snapshot_not_persisted :
    ((ChatRouter.reply_to_message "1" 10 "re" "text" none none 7 3 dbReply wsEmpty).response.map
        (fun m => m.reply_to)) = Except.ok none ∧
      ((ChatRouter.reply_to_message "1" 10 "re" "text" none none 7 3 dbReply
          wsEmpty).db.messages.map (fun m => (m.oid, m.reply_to, m.content))) =
        [(10, none, "hello"), (11, none, "re")] ∧
      (ChatRouter.reply_to_message "1" 99 "re" "text" none none 7 3 dbReply wsEmpty).response =
        Except.error { status_code := 500,
                       detail := "Error replying to message: 404: Original message not found" } :=
  ⟨rfl, rfl, rfl⟩

/-- C4: the claim says delete-for-everyone by the sender marks exactly the
identified message deleted and leaves the rest of the chat untouched.  On
the code, the update query is `$or [{_id}, {message_id}, {chat_id}]`, so
`update_one` hits the first message of the chat in collection order: when
sender 7 deletes message 11, message 10 gets the placeholder and the
deletion marker while message 11 is unchanged.  The Forbidden check for a
non-sender (user 2) does hold. -/
theorem c4_delete_for_everyone_modifies_wrong_message :
    (ChatRouter.delete_message 11 true 7 5 dbTwoMessages wsEmpty).response =
        Except.ok "Message deleted successfully" ∧
      ((ChatRouter.delete_message 11 true 7 5 dbTwoMessages wsEmpty).db.messages.map
        (fun m => (m.oid, m.content, m.is_deleted, m.deleted_by.isSome))) =
        [(10, "This message was deleted", true, true),
         (11, "second message", false, false)] ∧
      (ChatRouter.delete_message 11 true 2 5 dbTwoMessages wsEmpty).response =
        Except.error { status_code := 403,
                       detail := "Only the sender can delete messages for everyone" } :=
  ⟨rfl, rfl, rfl⟩

/-- C6: the claim says delete-for-self by user 7 adds 7's entry to the
identified message's `deleted_for` only, after which 7's message list
excludes that message and user 2's list is unchanged.  On the code, the same
`$or` query bug routes the `$addToSet` to the chat's first message: deleting
message 11 for-self marks message 10 instead, so 7's list afterwards still
contains message 11 and has lost message 10, while 2 indeed still sees both
with original content. -/
theorem c6_delete_for_self_hits_wrong_message :
    (ChatRouter.delete_message 11 false 7 5 dbTwoMessages wsEmpty).response =
        Except.ok "Message deleted successfully" ∧
      ((ChatRouter.delete_message 11 false 7 5 dbTwoMessages wsEmpty).db.messages.map
        (fun m => (m.oid, m.deleted_for))) =
        [(10, [{ user_id := BVal.bint 7, user_type := "user", deleted_at := 5 }]),
         (11, [])] ∧
      ((ChatService.get_chat_messages "1" (BVal.bint 7) "user" 50
          (ChatRouter.delete_message 11 false 7 5 dbTwoMessages wsEmpty).db).map
        (fun m => (m.message_id, m.content))) = [("11", "second message")] ∧
      ((ChatService.get_chat_messages "1" (BVal.bint 2) "user" 50
          (ChatRouter.delete_message 11 false 7 5 dbTwoMessages wsEmpty).db).map
        (fun m => (m.message_id, m.content))) =
        [("11", "second message"), ("10", "first message")] :=
  ⟨rfl, rfl, rfl, rfl⟩

/-- C7: the claim says a sole admin's leave fails with `InvalidState` (the
route's own `HTTPException(400, ...)`) and leaves the group unchanged, and
that leave succeeds after a second admin exists.  On the code, the guard
fires and the state is unchanged, but the handler's blanket
`except Exception` catches the 400 and re-raises it as a 500 wrapping
`str(e)`, so the caller sees a generic internal error instead of the
InvalidState failure; after admin 2 is present, the same leave succeeds and
removes user 1 from the participants. -/
theorem c7_sole_admin_leave_wrapped_as_500 :
    (ChatRouter.leave_group "3" none 1 5 dbSoloAdmin wsEmpty).response =
        Except.error { status_code := 500,
                       detail := "Error leaving group: 400: You are the only admin. Please assign another admin before leaving" } ∧
      (ChatRouter.leave_group "3" none 1 5 dbSoloAdmin wsEmpty).db = dbSoloAdmin ∧
      (ChatRouter.leave_group "3" none 1 5 dbTwoAdmins wsEmpty).response =
        Except.ok "Left group successfully" ∧
      ((ChatRouter.leave_group "3" none 1 5 dbTwoAdmins wsEmpty).db.chats.map
        (fun c => c.participants.map (fun p => p.id))) =
        [[BVal.bint 2, BVal.bint 3]] :=
  ⟨rfl, rfl, rfl, rfl⟩

/-- C9: the claim says `mark_as_read` adds the viewer's read entry exactly to
the messages not sent by the viewer and not already read by them.  On the
code, `sender_id` is stored as a string while the viewer id is the integer
`current_user.user_id`, so the BSON `$ne` and `$elemMatch` comparisons never
match: viewer 7's own message 11 — which already carries their (string-keyed)
self read entry — receives a second, integer-keyed read entry.  The unread
counter reset to 0 does happen. -/
theorem c9_mark_read_marks_viewer_own_messages :
    ((ChatService.mark_as_read "1" (BVal.bint 7) "user" 5 dbTwoMessages).2.messages.map
        (fun m => (m.oid, m.sender_id, m.read_by.map (fun e => e.user_id)))) =
        [(10, BVal.bstr "2", [BVal.bstr "2", BVal.bint 7]),
         (11, BVal.bstr "7", [BVal.bstr "7", BVal.bint 7])] ∧
      ((ChatService.mark_as_read "1" (BVal.bint 7) "user" 5 dbTwoMessages).2.chats.map
        (fun c => c.unread_counts)) = [[("user_7", 0)]] :=
  ⟨rfl, rfl⟩

/-- C2 counterexample: the claim says membership grant and invite
consumption form one atomic transition with no state in which the user has
joined while the invite is still redeemable.  On the code,
`join_group_via_invite` issues `add_chat_participant` and `mark_invite_used`
as two separate store updates: its final state factors through the
intermediate state after the first update, and in that state user 7 is
already a participant of chat 5 while `get_invite` still returns the invite
as redeemable. -/
theorem c2_join_passes_through_redeemable_member_state :
    (ChatRouter.join_group_via_invite "codeX" 7 20 dbInvite wsEmpty).db =
        (ChatService.mark_invite_used "codeX" 7 20
          (ChatService.add_chat_participant "5" 7 "user" "member" 20 dbInvite).2).2 ∧
      isParticipantOfChat "5" 7
        (ChatService.add_chat_participant "5" 7 "user" "member" 20 dbInvite).2 = true ∧
      ChatService.get_invite "codeX" 20
        (ChatService.add_chat_participant "5" 7 "user" "member" 20 dbInvite).2 =
        some inviteX :=
  ⟨rfl, rfl, rfl⟩

/-- C10: `mark_messages_as_delivered` unconditionally resets the viewer's
`unread_counts.{kind}_{id}` key to 0 on the chat it finds by `_id` or alias,
besides appending the viewer's delivery entry to every message of the chat
not sent by the viewer (BSON comparison) and not yet carrying it; and the
`GET /{chat_id}/messages` route ends in exactly that service call, so
fetching messages also leaves the viewer's counter at 0. -/
theorem c10_mark_delivered_always_resets_unread
    (chat_id : String) (uid : Int) (ut : String) (now limit : Nat) (db : ChatDB)
    (ws : WSState) (chat : ChatDoc)
    (hfind : db.chats.find? (fun c => toString c.oid == chat_id || c.chat_id == some chat_id) =
      some chat)
    (halias : ChatService.get_chat chat_id db = some chat)
    (hpart : chat.participants.any (fun p => pyStr p.id == toString uid) = true)
    (htype : ChatService.get_participant_type chat_id (.bint uid) db = .ok ut) :
    chatUnreadCounter chat_id (ut ++ "_" ++ toString uid)
        (ChatService.mark_messages_as_delivered chat_id (.bint uid) ut now db).2 =
      some (some 0) ∧
    (∀ m ∈ (ChatService.mark_messages_as_delivered chat_id (.bint uid) ut now db).2.messages,
      m.chat_id = chat_id → (m.sender_id == BVal.bint uid) = false →
        m.delivered_to.any (fun e => e.user_id == BVal.bint uid && e.user_type == ut) = true) ∧
    (ChatRouter.get_chat_messages chat_id limit uid now db ws).db =
      (ChatService.mark_messages_as_delivered chat_id (.bint uid) ut now db).2 := by
  refine ⟨?_, ?_, ?_⟩
  · have hfu := find?_updateFirst
      (fun c => toString c.oid == chat_id || c.chat_id == some chat_id)
      (fun c => { c with unread_counts := aset (ut ++ "_" ++ pyStr (BVal.bint uid)) 0 c.unread_counts })
      (fun _ => rfl) db.chats chat hfind
    rw [chatUnreadCounter]
    rw [show (ChatService.mark_messages_as_delivered chat_id (.bint uid) ut now db).2.chats =
      (updateFirst (fun c => toString c.oid == chat_id || c.chat_id == some chat_id)
        (fun c => { c with unread_counts := aset (ut ++ "_" ++ pyStr (BVal.bint uid)) 0 c.unread_counts })
        db.chats).1 from rfl]
    rw [hfu]
    simp [alookup_aset, pyStr]
  · intro m hm
    refine updateAll_forall
      (Q := fun m2 => m2.chat_id = chat_id → (m2.sender_id == BVal.bint uid) = false →
        (m2.delivered_to.any fun e => e.user_id == BVal.bint uid && e.user_type == ut) = true)
      ?_ ?_ db.messages m hm
    · intro x hx _ _
      exact addToSet_any _ _ _ (by simp)
    · intro x hx h1 h2
      rw [h1, h2] at hx
      simpa using hx
  · have hred : (ChatRouter.get_chat_messages chat_id limit uid now db ws) =
        ChatRouter.okResult
          (ChatService.get_chat_messages chat_id (.bint uid) ut limit db)
          (ChatService.mark_messages_as_delivered chat_id (.bint uid) ut now db).2 ws := by
      rw [ChatRouter.get_chat_messages, halias]
      simp [hpart, htype]
    rw [hred]
    rfl

/-- C10 witness: viewer 7 fetches the messages of chat 1 (unread counter 2
beforehand); the counter is 0 afterwards and both messages carry 7's
delivery entry. -/
theorem c10_witness :
    chatUnreadCounter "1" ("user" ++ "_" ++ toString (7 : Int))
        (ChatService.mark_messages_as_delivered "1" (.bint 7) "user" 5 dbTwoMessages).2 =
      some (some 0) :=
  (c10_mark_delivered_always_resets_unread "1" 7 "user" 5 50 dbTwoMessages wsEmpty
    twoMemberChat rfl rfl rfl rfl).1

theorem map_id_map_mkAdminEntry (uid : Int) (now : Nat) (l : List Int) :
    ((l.map (fun i => ChatService.mkAdminEntry i uid now)).map (fun a => a.id)) = l := by
  induction l with
  | nil => rfl
  | cons x xs ih => simpa [ChatService.mkAdminEntry] using ih

/-- C5: `update_group_admins` called by a current admin with participant ids
yields an admin id set that is exactly the union of the previous admin ids,
the requested ids and the caller; the previous admin entries are kept as an
unchanged prefix (not duplicated or reset), and the id list stays
duplicate-free. -/
theorem c5_grant_admins_union (chat_id : String) (admin_ids : List Int) (uid : Int)
    (now : Nat) (db : ChatDB) (ws : WSState) (chat : ChatDoc)
    (halias : ChatService.get_chat chat_id db = some chat)
    (hid : db.chats.find? (fun c => toString c.oid == chat_id) = some chat)
    (htype : chat.chat_type = "group_chat")
    (hadmin : ChatService.is_group_admin chat_id uid db = true)
    (huid : uid ∈ chat.group_admins.map (fun a => a.id))
    (hne : admin_ids.isEmpty = false)
    (hparts : ∀ a ∈ admin_ids,
      (chat.participants.map (fun p => pyStr p.id)).contains (toString a) = true)
    (hws : alookup chat_id ws.chat_rooms = none)
    (hnodup : (chat.group_admins.map (fun a => a.id)).Nodup) :
    ∃ (result : ChatService.AdminUpdateResult) (chat2 : ChatDoc),
      (ChatRouter.update_group_admins chat_id admin_ids uid now db ws).response =
        Except.ok result ∧
      ((ChatRouter.update_group_admins chat_id admin_ids uid now db ws).db.chats.find?
        (fun c => toString c.oid == chat_id)) = some chat2 ∧
      (∀ x : Int, x ∈ chat2.group_admins.map (fun a => a.id) ↔
        (x ∈ chat.group_admins.map (fun a => a.id) ∨ x ∈ admin_ids ∨ x = uid)) ∧
      chat2.group_admins.take chat.group_admins.length = chat.group_admins ∧
      (chat2.group_admins.map (fun a => a.id)).Nodup := by
  have hmem2 : uid ∈ (if !(admin_ids.contains uid) then admin_ids ++ [uid] else admin_ids) := by
    by_cases hc : admin_ids.contains uid = true
    · have hcond : ¬((!admin_ids.contains uid) = true) := by rw [hc]; simp
      rw [if_neg hcond]
      exact List.mem_of_elem_eq_true hc
    · have hc2 : admin_ids.contains uid = false := by rwa [Bool.not_eq_true] at hc
      have hcond : (!admin_ids.contains uid) = true := by rw [hc2]; rfl
      rw [if_pos hcond]
      exact List.mem_append.mpr (Or.inr (List.mem_singleton.mpr rfl))
  have hmem3 : uid ∈ dedupFirst (if !(admin_ids.contains uid) then admin_ids ++ [uid]
      else admin_ids) :=
    (mem_dedupFirst _ _).mpr hmem2
  have hcont3 : (dedupFirst (if !(admin_ids.contains uid) then admin_ids ++ [uid]
      else admin_ids)).contains uid = true :=
    List.elem_eq_true_of_mem hmem3
  have hids3mem : ∀ y : Int, y ∈ dedupFirst (if !(admin_ids.contains uid) then
      admin_ids ++ [uid] else admin_ids) ↔ (y ∈ admin_ids ∨ y = uid) := by
    intro y
    rw [mem_dedupFirst]
    by_cases hc : admin_ids.contains uid = true
    · have hcond : ¬((!admin_ids.contains uid) = true) := by rw [hc]; simp
      rw [if_neg hcond]
      constructor
      · exact Or.inl
      · rintro (h | rfl)
        · exact h
        · exact List.mem_of_elem_eq_true hc
    · have hc2 : admin_ids.contains uid = false := by rwa [Bool.not_eq_true] at hc
      have hcond : (!admin_ids.contains uid) = true := by rw [hc2]; rfl
      rw [if_pos hcond]
      simp [List.mem_append]
  have hserv0 : ∃ (r : ChatService.AdminUpdateResult) (db2 : ChatDB),
      ChatService.update_group_admins chat_id
        (dedupFirst (if !(admin_ids.contains uid) then admin_ids ++ [uid] else admin_ids))
        uid now db = Except.ok (r, db2) ∧
      db2.chats = (updateFirst (fun c => toString c.oid == chat_id)
        (fun c => { c with group_admins := chat.group_admins ++
          (((dedupFirst (if !(admin_ids.contains uid) then admin_ids ++ [uid] else admin_ids)).filter
            (fun i => !((chat.group_admins.map (fun a => a.id)).contains i))).map
            (fun i => ChatService.mkAdminEntry i uid now)) }) db.chats).1 := by
    rw [ChatService.update_group_admins, hid]
    simp only [hcont3, Bool.not_true, Bool.false_and, Bool.false_eq_true, if_false]
    exact ⟨_, _, rfl, rfl⟩
  obtain ⟨r, db2, hserv, hdb2chats⟩ := hserv0
  have htypeb : (chat.chat_type == "group_chat") = true := by simp [htype]
  have hpartfilter : (admin_ids.filter (fun a =>
      !((chat.participants.map (fun p => pyStr p.id)).contains (toString a)))) = [] :=
    List.filter_eq_nil_iff.mpr (fun a ha => by rw [hparts a ha]; simp)
  have hbr : ConnectionManager.broadcast_to_chat chat_id "admins_updated" none ws =
      { err := none, state := ws, sent := [] } := by
    rw [ConnectionManager.broadcast_to_chat, hws]
  have hroute : ChatRouter.update_group_admins chat_id admin_ids uid now db ws =
      ChatRouter.okResult r db2 ws := by
    rw [ChatRouter.update_group_admins, halias]
    simp only [htypeb, hadmin, hne, hpartfilter, Bool.not_true, Bool.false_eq_true, if_false,
      List.isEmpty_nil, hserv, hbr]
  refine ⟨r, { chat with group_admins := chat.group_admins ++
    (((dedupFirst (if !(admin_ids.contains uid) then admin_ids ++ [uid] else admin_ids)).filter
      (fun i => !((chat.group_admins.map (fun a => a.id)).contains i))).map
      (fun i => ChatService.mkAdminEntry i uid now)) }, ?_, ?_, ?_, ?_, ?_⟩
  · rw [hroute]
    rfl
  · rw [hroute]
    show db2.chats.find? (fun c => toString c.oid == chat_id) = _
    rw [hdb2chats]
    refine find?_updateFirst _ _ (fun c => ?_) _ _ hid
    rfl
  · intro x
    show x ∈ (chat.group_admins ++ _).map (fun a => a.id) ↔ _
    rw [List.map_append, map_id_map_mkAdminEntry]
    rw [List.mem_append, List.mem_filter]
    constructor
    · rintro (h | ⟨h3, _⟩)
      · exact Or.inl h
      · rcases (hids3mem x).mp h3 with h | h
        · exact Or.inr (Or.inl h)
        · exact Or.inr (Or.inr h)
    · rintro (h | h | rfl)
      · exact Or.inl h
      · by_cases hcx : (chat.group_admins.map (fun a => a.id)).contains x = true
        · exact Or.inl (List.mem_of_elem_eq_true hcx)
        · have hcx2 : (chat.group_admins.map (fun a => a.id)).contains x = false := by
            simpa using hcx
          exact Or.inr ⟨(hids3mem x).mpr (Or.inl h), by rw [hcx2]; rfl⟩
      · exact Or.inl huid
  · show (chat.group_admins ++ _).take chat.group_admins.length = chat.group_admins
    exact List.take_left _ _
  · show ((chat.group_admins ++ _).map (fun a => a.id)).Nodup
    rw [List.map_append, map_id_map_mkAdminEntry]
    refine List.Nodup.append hnodup (List.Nodup.filter _ (nodup_dedupFirst _)) ?_
    intro a ha hb
    have hpb := (List.mem_filter.mp hb).2
    have hca : (chat.group_admins.map (fun a2 => a2.id)).contains a = true :=
      List.elem_eq_true_of_mem ha
    rw [hca] at hpb
    simp at hpb

/-- C5 witness: in group 9 with participants 1 (admin), 2, 3, admin 1 grants
[2]; the call succeeds and the resulting admin id set is exactly {1, 2}. -/
theorem c5_witness :
    (∃ (result : ChatService.AdminUpdateResult) (chat2 : ChatDoc),
      (ChatRouter.update_group_admins "9" [2] 1 5 dbScenario wsEmpty).response =
        Except.ok result ∧
      ((ChatRouter.update_group_admins "9" [2] 1 5 dbScenario wsEmpty).db.chats.find?
        (fun c => toString c.oid == "9")) = some chat2 ∧
      (∀ x : Int, x ∈ chat2.group_admins.map (fun a => a.id) ↔
        (x ∈ scenarioChat.group_admins.map (fun a => a.id) ∨ x ∈ [(2 : Int)] ∨ x = 1)) ∧
      chat2.group_admins.take scenarioChat.group_admins.length = scenarioChat.group_admins ∧
      (chat2.group_admins.map (fun a => a.id)).Nodup) ∧
    chatAdminIds "9" (ChatRouter.update_group_admins "9" [2] 1 5 dbScenario wsEmpty).db =
      some [1, 2] :=
  ⟨c5_grant_admins_union "9" [2] 1 5 dbScenario wsEmpty scenarioChat rfl rfl rfl rfl
    (by decide) rfl (by decide) rfl (by decide), rfl⟩

theorem toggleEntries_no_entry (entries : List ReactionEntry) (uid : Int) (now : Nat)
    (hno : entries.any (fun e => e.user_id == uid) = false) :
    ChatService.toggleEntries entries uid now =
      entries ++ [{ user_id := uid, timestamp := now }] := by
  rw [ChatService.toggleEntries,
    List.find?_eq_none.mpr (fun x hx => by simpa using List.any_eq_false.mp hno x hx)]

theorem toggleEntries_found (entries : List ReactionEntry) (uid : Int) (now : Nat)
    (r : ReactionEntry) (hr : entries.find? (fun e => e.user_id == uid) = some r) :
    ChatService.toggleEntries entries uid now = entries.erase r := by
  rw [ChatService.toggleEntries, hr]

theorem toggleEntries_undo (entries : List ReactionEntry) (uid : Int) (n1 n2 : Nat)
    (hno : entries.any (fun e => e.user_id == uid) = false) :
    ChatService.toggleEntries (entries ++ [{ user_id := uid, timestamp := n1 }]) uid n2 =
      entries := by
  have hnotin : ({ user_id := uid, timestamp := n1 } : ReactionEntry) ∉ entries := by
    intro hc
    have hq := List.any_eq_false.mp hno _ hc
    simp at hq
  have hfind2 : (entries ++ [({ user_id := uid, timestamp := n1 } : ReactionEntry)]).find?
      (fun e => e.user_id == uid) = some { user_id := uid, timestamp := n1 } := by
    rw [find?_append_left_none _ _ _ (fun x hx => by
      simpa using List.any_eq_false.mp hno x hx)]
    exact List.find?_cons_of_pos _ (by simp)
  rw [ChatService.toggleEntries, hfind2]
  show (entries ++ [({ user_id := uid, timestamp := n1 } : ReactionEntry)]).erase
    { user_id := uid, timestamp := n1 } = entries
  rw [List.erase_append_right _ hnotin, List.erase_cons_head]
  simp

theorem toggle_message_reaction_eq (mid : Nat) (uid : Int) (emoji : String) (now : Nat)
    (db : ChatDB) (m : MessageDoc) (hget : ChatService.get_message mid db = some m) :
    ChatService.toggle_message_reaction mid uid emoji now db =
      Except.ok (ChatService.toggleReactions m.reactions uid emoji now,
        { db with messages := (updateFirst (fun d => d.oid == mid)
          (fun d => { d with reactions := ChatService.toggleReactions m.reactions uid emoji now })
          db.messages).1 }) := by
  rw [ChatService.toggle_message_reaction, hget]

/-- C8: `toggle_message_reaction` has toggle semantics: when the user has no
entry under the emoji, the new mapping appends `{user_id, timestamp}` under
that key; when an entry exists, it is removed, and the emoji key is pruned
if its entry list became empty; consequently toggling twice starting from a
no-entry state returns the exact original reactions mapping and leaves the
database in its original state. -/
theorem c8_toggle_reaction (db : ChatDB) (mid : Nat) (uid : Int) (emoji : String)
    (n1 n2 : Nat) (m : MessageDoc)
    (hget : ChatService.get_message mid db = some m)
    (hwf : ∀ kv ∈ m.reactions, kv.2 ≠ ([] : List ReactionEntry)) :
    ((((alookup emoji m.reactions).getD []).any (fun e => e.user_id == uid) = false →
      (ChatService.toggle_message_reaction mid uid emoji n1 db).map Prod.fst =
        Except.ok (aset emoji (((alookup emoji m.reactions).getD []) ++
          [{ user_id := uid, timestamp := n1 }]) m.reactions) ∧
      (ChatService.toggle_message_reaction mid uid emoji n1 db).map
          (fun rd => ChatService.toggle_message_reaction mid uid emoji n2 rd.2) =
        Except.ok (Except.ok (m.reactions, db)))) ∧
    (∀ r : ReactionEntry,
      (((alookup emoji m.reactions).getD []).find? (fun e => e.user_id == uid)) = some r →
      (ChatService.toggle_message_reaction mid uid emoji n1 db).map Prod.fst =
        Except.ok (if (((alookup emoji m.reactions).getD []).erase r).isEmpty = true
          then aremove emoji m.reactions
          else aset emoji (((alookup emoji m.reactions).getD []).erase r) m.reactions)) := by
  have htog1 : ChatService.toggle_message_reaction mid uid emoji n1 db =
      Except.ok (ChatService.toggleReactions m.reactions uid emoji n1,
        { db with messages := (updateFirst (fun d => d.oid == mid)
          (fun d => { d with reactions := ChatService.toggleReactions m.reactions uid emoji n1 })
          db.messages).1 }) := by
    rw [ChatService.toggle_message_reaction, hget]
  constructor
  · intro hno
    have hR : ChatService.toggleReactions m.reactions uid emoji n1 =
        aset emoji (((alookup emoji m.reactions).getD []) ++
          [{ user_id := uid, timestamp := n1 }]) m.reactions := by
      rw [ChatService.toggleReactions, toggleEntries_no_entry _ _ _ hno,
        isEmpty_append_singleton]
      simp
    have hback : ChatService.toggleReactions
        (aset emoji (((alookup emoji m.reactions).getD []) ++
          [{ user_id := uid, timestamp := n1 }]) m.reactions) uid emoji n2 = m.reactions := by
      rw [ChatService.toggleReactions, alookup_aset]
      rw [show (Option.getD (some (((alookup emoji m.reactions).getD []) ++
        [({ user_id := uid, timestamp := n1 } : ReactionEntry)])) []) =
        ((alookup emoji m.reactions).getD []) ++
          [({ user_id := uid, timestamp := n1 } : ReactionEntry)] from rfl]
      rw [toggleEntries_undo _ _ _ _ hno]
      rcases halk : alookup emoji m.reactions with _ | l0
      · simp only [Option.getD_none, List.nil_append, List.isEmpty_nil, if_true]
        exact aremove_aset_none _ _ _ halk
      · have hl0 : (emoji, l0) ∈ m.reactions := alookup_mem _ _ _ halk
        have hl0ne : l0 ≠ [] := hwf _ hl0
        have hemp : l0.isEmpty = false := by
          cases l0 with
          | nil => exact absurd rfl hl0ne
          | cons a as => rfl
        simp only [Option.getD_some, hemp, Bool.false_eq_true, if_false]
        rw [aset_aset]
        exact aset_self _ _ _ halk
    constructor
    · rw [htog1, hR]
      rfl
    · rw [htog1, hR]
      show Except.ok (ChatService.toggle_message_reaction mid uid emoji n2 _) = _
      refine congrArg Except.ok ?_
      have hget2 : ChatService.get_message mid
          { db with messages := (updateFirst (fun d => d.oid == mid)
            (fun d => { d with reactions := aset emoji (((alookup emoji m.reactions).getD []) ++
              [{ user_id := uid, timestamp := n1 }]) m.reactions }) db.messages).1 } =
          some { m with reactions := aset emoji (((alookup emoji m.reactions).getD []) ++
            [{ user_id := uid, timestamp := n1 }]) m.reactions } := by
        show ((updateFirst (fun d => d.oid == mid) _ db.messages).1).find?
          (fun d => d.oid == mid) = _
        refine find?_updateFirst _ _ (fun d => ?_) _ _ hget
        rfl
      rw [toggle_message_reaction_eq mid uid emoji n2 _ _ hget2]
      simp only [hback]
      have hfind0 : db.messages.find? (fun d => d.oid == mid) = some m := hget
      rw [updateFirst_restore (fun d => d.oid == mid)
        (fun d => { d with reactions := m.reactions })
        (fun d => { d with reactions := aset emoji (((alookup emoji m.reactions).getD []) ++
          [{ user_id := uid, timestamp := n1 }]) m.reactions })
        db.messages m (fun x => rfl) hfind0 rfl]
  · intro r hr
    rw [htog1]
    refine congrArg Except.ok ?_
    rw [ChatService.toggleReactions, toggleEntries_found _ _ _ _ hr]

/-- C8 witness: user 7 reacts twice with "x" on message 10 of chat 1 (which
has no reactions); the double toggle returns the original empty mapping and
the original database. -/
theorem c8_witness :
    (ChatService.toggle_message_reaction 10 7 "x" 5 dbTwoMessages).map
        (fun rd => ChatService.toggle_message_reaction 10 7 "x" 6 rd.2) =
      Except.ok (Except.ok ((mkTextMsg 10 "1" "2" "first message" 1).reactions,
        dbTwoMessages)) :=
  ((c8_toggle_reaction dbTwoMessages 10 7 "x" 5 6 (mkTextMsg 10 "1" "2" "first message" 1)
    rfl (by simp [mkTextMsg])).1 (by decide)).2

/-- C2 (amended): under sequential execution, redemption of a valid invite
by a non-participant succeeds and factors into two separate store updates —
first the member add, then the invite consumption.  The intermediate state
is observable: after the first update the user is already a participant
while the invite is still redeemable.  Afterwards the user is a member, the
invite is no longer redeemable, and any later sequential redemption attempt
fails with 404 — so at most one sequential caller succeeds, but the
transition is not atomic. -/
theorem c2_invite_redemption_sequential (invite_code : String) (uid : Int) (now : Nat)
    (db : ChatDB) (ws : WSState) (inv : InviteDoc) (chat : ChatDoc)
    (hinv : ChatService.get_invite invite_code now db = some inv)
    (hchat : ChatService.get_chat inv.chat_id db = some chat)
    (hid : db.chats.find? (fun c => toString c.oid == inv.chat_id) = some chat)
    (hnp : chat.participants.any (fun p => pyStr p.id == toString uid) = false)
    (hnd : (db.invites.map (fun i => i.code)).Nodup) :
    ChatRouter.join_group_via_invite invite_code uid now db ws =
      ChatRouter.okResult (inv.chat_id, ChatRouter.JoinStatus.joined)
        ((ChatService.mark_invite_used invite_code uid now
          (ChatService.add_chat_participant inv.chat_id uid "user" "member" now db).2).2) ws ∧
    isParticipantOfChat inv.chat_id uid
      (ChatService.add_chat_participant inv.chat_id uid "user" "member" now db).2 = true ∧
    ChatService.get_invite invite_code now
      (ChatService.add_chat_participant inv.chat_id uid "user" "member" now db).2 = some inv ∧
    isParticipantOfChat inv.chat_id uid
      ((ChatService.mark_invite_used invite_code uid now
        (ChatService.add_chat_participant inv.chat_id uid "user" "member" now db).2).2) = true ∧
    ChatService.get_invite invite_code now
      ((ChatService.mark_invite_used invite_code uid now
        (ChatService.add_chat_participant inv.chat_id uid "user" "member" now db).2).2) = none ∧
    (∀ uid2 : Int, ChatRouter.join_group_via_invite invite_code uid2 now
        ((ChatService.mark_invite_used invite_code uid now
          (ChatService.add_chat_participant inv.chat_id uid "user" "member" now db).2).2) ws =
      ChatRouter.errResult 404 "Invite not found or expired"
        ((ChatService.mark_invite_used invite_code uid now
          (ChatService.add_chat_participant inv.chat_id uid "user" "member" now db).2).2) ws) := by
  have hfi : db.invites.find?
      (fun i => i.code == invite_code && i.is_active && decide (now < i.expires_at)) =
      some inv := hinv
  have hp := List.find?_some hfi
  simp only [Bool.and_eq_true, decide_eq_true_eq] at hp
  have hne2 : ¬(now > inv.expires_at) := Nat.lt_asymm hp.2
  have hfu := find?_updateFirst (fun c => toString c.oid == inv.chat_id)
    (fun c => { c with
      participants := addToSet (ChatService.newMemberEntry uid "user" "member" now) c.participants })
    (fun _ => rfl) db.chats chat hid
  have hmemb : isParticipantOfChat inv.chat_id uid
      (ChatService.add_chat_participant inv.chat_id uid "user" "member" now db).2 = true := by
    rw [isParticipantOfChat]
    rw [show (ChatService.add_chat_participant inv.chat_id uid "user" "member" now db).2.chats =
      (updateFirst (fun c => toString c.oid == inv.chat_id)
        (fun c => { c with
          participants := addToSet (ChatService.newMemberEntry uid "user" "member" now) c.participants })
        db.chats).1 from rfl]
    rw [hfu]
    exact addToSet_any _ _ _ (by simp [ChatService.newMemberEntry, pyStr])
  have hgone : ChatService.get_invite invite_code now
      ((ChatService.mark_invite_used invite_code uid now
        (ChatService.add_chat_participant inv.chat_id uid "user" "member" now db).2).2) =
      none :=
    get_invite_none_after_deactivate invite_code now uid db.invites hnd
  refine ⟨?_, hmemb, hinv, hmemb, hgone, ?_⟩
  · rw [ChatRouter.join_group_via_invite, hinv]
    simp [hchat, hnp, hne2]
  · intro uid2
    rw [ChatRouter.join_group_via_invite, hgone]

/-- C2 witness: user 7 redeems codeX on chat 5; afterwards the invite is no
longer redeemable. -/
theorem c2_witness :
    ChatService.get_invite "codeX" 20
      ((ChatService.mark_invite_used "codeX" 7 20
        (ChatService.add_chat_participant inviteX.chat_id 7 "user" "member" 20 dbInvite).2).2) =
      none :=
  (c2_invite_redemption_sequential "codeX" 7 20 dbInvite wsEmpty inviteX inviteChat rfl rfl
    rfl rfl (by decide)).2.2.2.2.1

end Luster
